import Mathlib

/-!
Shallow embedding of the MalShare ETL connector
(`etl_connector.py`, class `MalShareETLConnector`).

Python runtime values that flow through the connector are modelled by the
inductive type `PyValue`; raising Python code is modelled with `Except String`.
Wall-clock instants (`datetime.now(timezone.utc)`) are passed in explicitly as
a `Nat` parameter, and `datetime` objects produced by `strptime` are modelled
by the `pydatetime` constructor.
-/

/-- A Python value as it appears in this connector: JSON-decoded API data,
strings, the dicts the transformer builds, plus datetime and float
(modelled as `ℚ`) values the transformer inserts. -/
inductive PyValue where
  | pynone
  | pybool (b : Bool)
  | pyint (n : Int)
  | pyrat (q : ℚ)
  | pystr (s : String)
  | pylist (xs : List PyValue)
  | pydict (entries : List (String × PyValue))
  | pytime (t : Nat)
  | pydatetime (y m d hh mm ss : Nat)

/-- Python truthiness (`bool(v)`), as used by `if not raw_data`,
`if field in data and data[field]`, etc. -/
def truthy : PyValue → Bool
  | .pynone => false
  | .pybool b => b
  | .pyint n => n != 0
  | .pyrat q => q != 0
  | .pystr s => s != ""
  | .pylist xs => !xs.isEmpty
  | .pydict es => !es.isEmpty
  | .pytime _ => true
  | .pydatetime _ _ _ _ _ _ => true

/-- `isinstance(v, dict)`. -/
def isDict : PyValue → Bool
  | .pydict _ => true
  | _ => false

/-- Key lookup in a dict modelled as an association list (keys are unique in
every dict the connector builds or receives, so first-match lookup agrees
with Python dict lookup). -/
def dictLookup (es : List (String × PyValue)) (k : String) : Option PyValue :=
  match es with
  | [] => Option.none
  | e :: rest => if e.1 = k then some e.2 else dictLookup rest k

/-- `d[k] = v` on a dict: replace the value at `k` if present, else append. -/
def dictInsert (es : List (String × PyValue)) (k : String) (v : PyValue) :
    List (String × PyValue) :=
  match es with
  | [] => [(k, v)]
  | e :: rest => if e.1 = k then (k, v) :: rest else e :: dictInsert rest k v

theorem dictLookup_dictInsert_self (es : List (String × PyValue)) (k : String)
    (v : PyValue) : dictLookup (dictInsert es k v) k = some v := by
  induction es with
  | nil => simp [dictInsert, dictLookup]
  | cons e rest ih =>
      by_cases h : e.1 = k
      · simp [dictInsert, dictLookup, h]
      · simp [dictInsert, dictLookup, h, ih]

theorem dictLookup_dictInsert_ne (es : List (String × PyValue)) (k k' : String)
    (v : PyValue) (hk : k ≠ k') :
    dictLookup (dictInsert es k v) k' = dictLookup es k' := by
  induction es with
  | nil => simp [dictInsert, dictLookup, hk]
  | cons e rest ih =>
      by_cases h : e.1 = k
      · simp [dictInsert, dictLookup, h, hk]
      · simp only [dictInsert, h, if_false, dictLookup]
        by_cases h' : e.1 = k' <;> simp [h', ih]

example : dictLookup (dictInsert [("a", .pyint 1)] "b" .pynone) "a" =
    some (.pyint 1) := rfl

/-!
## Python string primitives

Core Lean string functions (`String.trim`, `String.toLower`, ...) are
implemented on byte positions and do not reduce in the kernel, so the Python
string operations the connector uses are modelled directly on `List Char`.
-/

/-- The whitespace characters `str.strip()` removes (space, tab, newline,
carriage return, vertical tab, form feed). -/
def py_isspace (c : Char) : Bool :=
  c == ' ' || c == '\t' || c == '\n' || c == '\r' || c == '\x0B' || c == '\x0C'

/-- `s.strip()` on a string: drop leading and trailing whitespace. -/
def py_strip_str (s : String) : String :=
  String.mk (((s.data.dropWhile py_isspace).reverse.dropWhile py_isspace).reverse)

/-- `str.split(sep)` on a character list: splitting the empty string yields
one empty field, and every separator starts a new field. -/
def py_split_char (c : Char) : List Char → List (List Char)
  | [] => [[]]
  | x :: rest =>
      let r := py_split_char c rest
      if x == c then [] :: r
      else
        match r with
        | [] => [[x]]
        | h :: t => (x :: h) :: t

/-- `s.split('\n')`. -/
def py_split_newline (s : String) : List String :=
  (py_split_char '\n' s.data).map String.mk

/-- `str.lower()` on one character (the file-type strings classified by the
transformer are ASCII). -/
def py_lower_char (c : Char) : Char :=
  if 'A' ≤ c ∧ c ≤ 'Z' then Char.ofNat (c.toNat + 32) else c

/-- `s.lower()`. -/
def py_lower (s : String) : String := String.mk (s.data.map py_lower_char)

/-- `s.startswith(p)`. -/
def py_startswith (s p : String) : Bool := p.data.isPrefixOf s.data

/-- `needle in hay` for strings: substring containment. -/
def py_contains_sub (needle hay : String) : Bool :=
  decide (needle.data <:+: hay.data)

example : py_strip_str "  hash1 \n" = "hash1" := by decide
example : py_split_newline "a\nb" = ["a", "b"] := by decide
example : py_lower "PE32 Executable" = "pe32 executable" := by decide
example : py_contains_sub "pe32" "pe32 executable" = true := by decide

/-!
## HTTP Request Executor (`_make_api_request`, lines 83-146)

Each outbound attempt is abstracted by its observable outcome; the executor
is a function of the attempt-indexed outcome trace. Its result is the
returned value together with the list of back-off sleeps performed (in
order, in seconds) and the number of attempts issued.
-/

/-- The outcome of one `requests.get` attempt as `_make_api_request` observes
it: an HTTP 429 status; a `RequestException` raised either as a non-2xx
status (via `raise_for_status`) or as a network error; or a 2xx response
carrying a content type, a decoded JSON body and a raw text body. -/
inductive AttemptOutcome where
  | rateLimited
  | httpError (status : Nat)
  | netError (msg : String)
  | success (contentType : String) (jsonBody : PyValue) (text : String)

/-- Request failures other than 429: a non-2xx status or a network error
(both reach the `except requests.exceptions.RequestException` handler). -/
def isRequestFailure : AttemptOutcome → Bool
  | .httpError _ => true
  | .netError _ => true
  | _ => false

/-- Lines 131-135: a JSON content type returns the parsed body; any other
content type returns `{'data': response.text.strip().split('\n')}`. -/
def process_response (contentType : String) (jsonBody : PyValue)
    (text : String) : PyValue :=
  if py_startswith contentType "application/json" then jsonBody
  else
    .pydict [("data",
      .pylist ((py_split_newline (py_strip_str text)).map .pystr))]

/-- The retry loop of `_make_api_request` (lines 110-146). The loop
`for attempt in range(max_retries)` is run with `remaining` attempts still
available after the current one (`remaining = max_retries - 1 - attempt`,
so `remaining = 0` exactly on the final attempt). Returns (result, sleeps
performed in order, attempts issued). On 429 it sleeps `delay * 2 ^ attempt`
and continues (even on the final attempt); on another failure it returns
`None` if this was the final attempt and otherwise sleeps
`delay * 2 ^ attempt` and retries; falling out of the loop returns `None`. -/
def api_request_loop (delay : ℚ) (outcome : Nat → AttemptOutcome) :
    Nat → Nat → Option PyValue × List ℚ × Nat
  | 0, _ => (Option.none, [], 0)
  | remaining + 1, attempt =>
      match outcome attempt with
      | .success ct j t => (some (process_response ct j t), [], 1)
      | .rateLimited =>
          let rest := api_request_loop delay outcome remaining (attempt + 1)
          (rest.1, delay * 2 ^ attempt :: rest.2.1, rest.2.2 + 1)
      | .httpError _ =>
          if remaining = 0 then (Option.none, [], 1)
          else
            let rest := api_request_loop delay outcome remaining (attempt + 1)
            (rest.1, delay * 2 ^ attempt :: rest.2.1, rest.2.2 + 1)
      | .netError _ =>
          if remaining = 0 then (Option.none, [], 1)
          else
            let rest := api_request_loop delay outcome remaining (attempt + 1)
            (rest.1, delay * 2 ^ attempt :: rest.2.1, rest.2.2 + 1)

/-- `_make_api_request`: run the retry loop from attempt 0 with
`max_retries` attempts available. -/
def make_api_request (max_retries : Nat) (delay : ℚ)
    (outcome : Nat → AttemptOutcome) : Option PyValue × List ℚ × Nat :=
  api_request_loop delay outcome max_retries 0

/-!
## Extractor (`extract_sample_list`, lines 148-172)
-/

/-- One Python `for s in v` iteration: lists yield elements, strings yield
characters, dicts yield keys; other values raise `TypeError`. -/
def py_iter : PyValue → Except String (List PyValue)
  | .pylist xs => .ok xs
  | .pystr s => .ok (s.data.map fun c => .pystr (String.mk [c]))
  | .pydict es => .ok (es.map fun e => .pystr e.1)
  | _ => .error "TypeError: object is not iterable"

/-- `s.strip()`: only strings have `strip`; it trims surrounding whitespace
(modelled by `String.trim`). -/
def py_strip : PyValue → Except String String
  | .pystr s => .ok (py_strip_str s)
  | _ => .error "AttributeError: no attribute strip"

/-- Python `k in v` membership: dict keys, list elements (string equality),
substring for strings; `TypeError` otherwise. -/
def py_contains_key (v : PyValue) (k : String) : Except String Bool :=
  match v with
  | .pydict es => .ok (es.any fun e => e.1 == k)
  | .pylist xs =>
      .ok (xs.any fun x => match x with | .pystr s => s == k | _ => false)
  | .pystr s => .ok (decide (k.data <:+: s.data))
  | _ => .error "TypeError: argument is not a container"

/-- Python `v[k]` subscription for a string key. -/
def py_getitem (v : PyValue) (k : String) : Except String PyValue :=
  match v with
  | .pydict es =>
      match dictLookup es k with
      | some x => .ok x
      | Option.none => .error "KeyError"
  | _ => .error "TypeError: value is not subscriptable"

/-- `extract_sample_list` (lines 148-172): if the executor returned `None`, a
falsy response, or a response without a `'data'` key, return `[]`; otherwise
evaluate `[s.strip() for s in samples if s.strip()][:limit]` (each stripped
line is kept when non-empty, i.e. truthy, and the result is cut to `limit`). -/
def extract_sample_list (limit : Nat) (response : Option PyValue) :
    Except String (List String) :=
  match response with
  | Option.none => .ok []
  | some v =>
      if !truthy v then .ok []
      else do
        let hasData ← py_contains_key v "data"
        if !hasData then pure []
        else do
          let data ← py_getitem v "data"
          let elems ← py_iter data
          let stripped ← elems.mapM py_strip
          pure ((stripped.filter fun s => s != "").take limit)

example :
    extract_sample_list 10
      (some (.pydict [("data",
        .pylist [.pystr "hash1", .pystr "hash2", .pystr "hash3", .pystr ""])])) =
    .ok ["hash1", "hash2", "hash3"] := rfl

example : extract_sample_list 2 Option.none = .ok [] := rfl

example :
    (make_api_request 2 1 (fun _ => .netError "refused")).2.2 = 2 := rfl

/-!
## Transformer (`transform_data`, lines 194-257, and
`_calculate_completeness`, lines 259-267)
-/

/-- Parse one numeric `strptime` field: at most `maxLen` digits, value within
`[lo, hi]`. -/
def parse_field (maxLen lo hi : Nat) (l : List Char) : Option Nat :=
  if l.isEmpty || decide (l.length > maxLen) || !l.all (fun c => c.isDigit)
  then Option.none
  else
    let v := l.foldl (fun a c => a * 10 + (c.toNat - 48)) 0
    if lo ≤ v ∧ v ≤ hi then some v else Option.none

/-- `datetime.strptime(s, '%Y-%m-%d %H:%M:%S')`: the input must be
`<year>-<month>-<day> <hour>:<minute>:<second>` with in-range numeric fields
(`%Y` up to 4 digits, the rest up to 2); a malformed string raises
`ValueError`, modelled as `none`. -/
def strptime_ymd_hms (s : String) : Option PyValue :=
  match py_split_char ' ' s.data with
  | [datePart, timePart] =>
      match py_split_char '-' datePart, py_split_char ':' timePart with
      | [y, m, d], [hh, mi, ss] => do
          let yv ← parse_field 4 0 9999 y
          let mv ← parse_field 2 1 12 m
          let dv ← parse_field 2 1 31 d
          let hv ← parse_field 2 0 23 hh
          let miv ← parse_field 2 0 59 mi
          let sv ← parse_field 2 0 61 ss
          some (.pydatetime yv mv dv hv miv sv)
      | _, _ => Option.none
  | _ => Option.none

/-- The `field_mapping` table of lines 219-227 (API field, standard field). -/
def field_mapping : List (String × String) :=
  [("MD5", "md5"), ("SHA1", "sha1"), ("SHA256", "sha256_confirmed"),
   ("SSDEEP", "ssdeep"), ("F_TYPE", "file_type"), ("SOURCES", "sources"),
   ("ADDED", "date_added")]

/-- Lines 229-231: for each mapping entry in order, copy the raw value to the
standard field when the API field is present. -/
def apply_field_mapping (raw : List (String × PyValue)) :
    List (String × String) → List (String × PyValue) → List (String × PyValue)
  | [], acc => acc
  | entry :: rest, acc =>
      apply_field_mapping raw rest
        (match dictLookup raw entry.1 with
         | some v => dictInsert acc entry.2 v
         | Option.none => acc)

/-- Lines 244-251: classify the (already lower-cased) file-type string by the
first matching substring rule. -/
def classify_sample_type (file_type : String) : String :=
  if py_contains_sub "pe32" file_type || py_contains_sub "executable" file_type
  then "executable"
  else if py_contains_sub "pdf" file_type then "document"
  else if py_contains_sub "zip" file_type || py_contains_sub "archive" file_type
  then "archive"
  else "unknown"

/-- The `expected_fields` list of `_calculate_completeness` (line 264). -/
def expected_fields : List String := ["MD5", "SHA1", "SHA256", "F_TYPE", "ADDED"]

/-- `_calculate_completeness` (lines 259-267): the number of expected fields
present with a truthy value, divided by 5; non-dict input scores 0.0. -/
def calculate_completeness (data : PyValue) : ℚ :=
  match data with
  | .pydict es =>
      ((expected_fields.countP fun f =>
          match dictLookup es f with
          | some v => truthy v
          | Option.none => false : Nat) : ℚ) / (expected_fields.length : ℚ)
  | _ => 0

/-- `transform_data` (lines 194-257). The metadata keys are set first; for a
dict input the field mapping is applied, the `ADDED` date is parsed (line 239
catches only `ValueError`, so `strptime` on a non-string value raises
`TypeError` out of the method), the sample type of the lower-cased `F_TYPE`
is stored (`.lower()` on a non-string value raises `AttributeError`); finally
`data_completeness` is set. The `now` argument stands for the
`datetime.now(timezone.utc)` instant. `transform_base` is the metadata dict
built at lines 208-214. -/
def transform_base (raw_data : PyValue) (sample_hash : String) (now : Nat) :
    List (String × PyValue) :=
  [("sha256", .pystr sample_hash),
   ("ingestion_timestamp", .pytime now),
   ("source", .pystr "malshare_api"),
   ("connector_version", .pystr "1.0"),
   ("raw_response", raw_data)]

def transform_data (raw_data : PyValue) (sample_hash : String) (now : Nat) :
    Except String (List (String × PyValue)) := do
  let base : List (String × PyValue) := transform_base raw_data sample_hash now
  let transformed ←
    match raw_data with
    | .pydict es => do
        let mapped := apply_field_mapping es field_mapping base
        let withDate ←
          match dictLookup es "ADDED" with
          | some (.pystr s) =>
              pure (match strptime_ymd_hms s with
                    | some dt => dictInsert mapped "date_added_parsed" dt
                    | Option.none => mapped)
          | some _ =>
              Except.error "TypeError: strptime() argument 1 must be str"
          | Option.none => pure mapped
        let ft ←
          match (dictLookup es "F_TYPE").getD (.pystr "") with
          | .pystr s => pure (py_lower s)
          | _ => Except.error "AttributeError: lower"
        pure (dictInsert withDate "sample_type"
              (.pystr (classify_sample_type ft)))
    | _ => pure base
  pure (dictInsert transformed "data_completeness"
        (.pyrat (calculate_completeness raw_data)))

/-!
## Loader (`load_data`, lines 269-298)
-/

/-- The outcome of `collection.replace_one(filter, doc, upsert=True)`: either
a result object carrying `upserted_id` and `modified_count`, or a raised
store error. -/
inductive ReplaceOneOutcome where
  | res (upserted_id : Option String) (modified_count : Nat)
  | raised (msg : String)

/-- `load_data` (lines 269-298): build the filter from
`transformed_data['sha256']`, upsert, and return `True` both when
`upserted_id`/`modified_count` indicate a change (line 291) and when nothing
changed (line 294); any raised store error is caught and reported as `False`
(line 298). The `'sha256'` lookup happens inside the `try` (line 281) and
again in the handler's log line (line 297), so a record without that key
raises `KeyError` out of the handler itself. -/
def load_data (transformed_data : List (String × PyValue))
    (replace : ReplaceOneOutcome) : Except String Bool :=
  match dictLookup transformed_data "sha256" with
  | Option.none => Except.error "KeyError: sha256"
  | some _ =>
      match replace with
      | .res upserted modified =>
          if upserted.isSome || decide (modified > 0) then pure true
          else pure true
      | .raised _ => pure false

/-!
## Orchestrator and entry point (`run_etl_pipeline`, lines 300-367, and
`main`, lines 387-412)
-/

/-- Line 300: the `sample_limit` default of `run_etl_pipeline` itself, used
when its caller passes no limit. -/
def run_etl_default_sample_limit : Nat := 50

/-- Line 313: the orchestrator asks the Extractor with exactly its
`sample_limit` argument. -/
def run_etl_sample_hashes (sample_limit : Nat)
    (listResponse : Option PyValue) : Except String (List String) :=
  extract_sample_list sample_limit listResponse

/-- Python `int(s)` on a decimal string: optional sign and at least one
digit, surrounding whitespace allowed; anything else raises `ValueError`,
modelled as `none`. -/
def py_int_of_string (s : String) : Option Int :=
  match (py_strip_str s).data with
  | [] => Option.none
  | c :: rest =>
      let signed : Int × List Char :=
        if c == '-' then (-1, rest)
        else if c == '+' then (1, rest) else (1, c :: rest)
      if signed.2.isEmpty || !signed.2.all (fun d => d.isDigit) then Option.none
      else
        some (signed.1 *
          (signed.2.foldl (fun a d => a * 10 + (d.toNat - 48)) 0 : Nat))

/-- Line 394: `int(os.getenv('SAMPLE_LIMIT', '25'))`, the limit `main`
passes to `run_etl_pipeline`; `env = none` models an unset variable, and a
result of `none` models `int` raising `ValueError`. -/
def main_sample_limit (env : Option String) : Option Int :=
  py_int_of_string (env.getD "25")

example :
    transform_data (.pydict [("F_TYPE", .pystr "PE32 executable")]) "h" 7 =
      .ok [("sha256", .pystr "h"), ("ingestion_timestamp", .pytime 7),
           ("source", .pystr "malshare_api"),
           ("connector_version", .pystr "1.0"),
           ("raw_response", .pydict [("F_TYPE", .pystr "PE32 executable")]),
           ("file_type", .pystr "PE32 executable"),
           ("sample_type", .pystr "executable"),
           ("data_completeness", .pyrat (1 / 5))] := by
  norm_num [transform_data, apply_field_mapping, field_mapping, dictLookup,
    dictInsert, calculate_completeness, expected_fields, truthy]
  rfl

example : main_sample_limit Option.none = some 25 := by decide

/-!
## Retry-loop lemmas
-/

/-- If every attempt fails with a non-429 request failure, the loop with `r`
attempts available starting at attempt `a` issues all `r` attempts, sleeps
between consecutive attempts only, and returns `None`. -/
theorem api_request_loop_all_fail (d : ℚ) (o : Nat → AttemptOutcome)
    (hf : ∀ i, isRequestFailure (o i) = true) :
    ∀ (r a : Nat), api_request_loop d o r a =
      (Option.none, (List.range (r - 1)).map (fun i => d * 2 ^ (a + i)), r) := by
  intro r
  induction r with
  | zero => intro a; simp [api_request_loop]
  | succ r ih =>
      intro a
      have hfa := hf a
      cases ho : o a with
      | rateLimited => rw [ho] at hfa; simp [isRequestFailure] at hfa
      | success ct j t => rw [ho] at hfa; simp [isRequestFailure] at hfa
      | httpError st =>
          cases r with
          | zero => simp [api_request_loop, ho]
          | succ r2 =>
              have harith : ∀ i, d * 2 ^ (a + 1 + i) = d * 2 ^ (a + (i + 1)) := by
                intro i
                have h2 : a + 1 + i = a + (i + 1) := by omega
                rw [h2]
              rw [api_request_loop]
              simp only [ho, Nat.succ_ne_zero, if_false, ih]
              simp [List.range_succ_eq_map, List.map_map, Function.comp,
                harith]
      | netError msg =>
          cases r with
          | zero => simp [api_request_loop, ho]
          | succ r2 =>
              have harith : ∀ i, d * 2 ^ (a + 1 + i) = d * 2 ^ (a + (i + 1)) := by
                intro i
                have h2 : a + 1 + i = a + (i + 1) := by omega
                rw [h2]
              rw [api_request_loop]
              simp only [ho, Nat.succ_ne_zero, if_false, ih]
              simp [List.range_succ_eq_map, List.map_map, Function.comp,
                harith]

/-- If every attempt is rate limited, the loop sleeps after every attempt
(including the final one) and returns `None` after `r` attempts. -/
theorem api_request_loop_all_rate_limited (d : ℚ) (o : Nat → AttemptOutcome)
    (hrl : ∀ i, o i = .rateLimited) :
    ∀ (r a : Nat), api_request_loop d o r a =
      (Option.none, (List.range r).map (fun i => d * 2 ^ (a + i)), r) := by
  intro r
  induction r with
  | zero => intro a; simp [api_request_loop]
  | succ r ih =>
      intro a
      have harith : ∀ i, d * 2 ^ (a + 1 + i) = d * 2 ^ (a + (i + 1)) := by
        intro i
        have h2 : a + 1 + i = a + (i + 1) := by omega
        rw [h2]
      rw [api_request_loop]
      simp only [hrl a, ih]
      simp [List.range_succ_eq_map, List.map_map, Function.comp, harith]

/-!
## Dict and field-mapping lookup lemmas
-/

theorem dictLookup_dictInsert (es : List (String × PyValue)) (k k' : String)
    (v : PyValue) :
    dictLookup (dictInsert es k v) k' =
      if k = k' then some v else dictLookup es k' := by
  by_cases h : k = k'
  · subst h; simp [dictLookup_dictInsert_self]
  · simp [h, dictLookup_dictInsert_ne _ _ _ _ h]

/-- Applying a field-mapping table none of whose standard fields is `k`
leaves the value stored at `k` unchanged. -/
theorem dictLookup_afm_not_target (raw : List (String × PyValue))
    (k : String) :
    ∀ (fm : List (String × String)) (acc : List (String × PyValue)),
      (∀ e ∈ fm, e.2 ≠ k) →
      dictLookup (apply_field_mapping raw fm acc) k = dictLookup acc k := by
  intro fm
  induction fm with
  | nil => intro acc _; rfl
  | cons e rest ih =>
      intro acc h
      have he : e.2 ≠ k := h e (List.mem_cons_self e rest)
      have hr : ∀ x ∈ rest, x.2 ≠ k :=
        fun x hx => h x (List.mem_cons_of_mem e hx)
      cases hv : dictLookup raw e.1 with
      | none => simp only [apply_field_mapping, hv]; exact ih _ hr
      | some v =>
          simp only [apply_field_mapping, hv]
          rw [ih _ hr, dictLookup_dictInsert_ne _ _ _ _ he]

/-- Classification always lands in the four-value enumeration. -/
theorem classify_sample_type_mem (s : String) :
    classify_sample_type s = "executable" ∨ classify_sample_type s = "document" ∨
    classify_sample_type s = "archive" ∨ classify_sample_type s = "unknown" := by
  unfold classify_sample_type
  split_ifs <;> simp

/-- The classifier is exactly the priority-ordered substring rule chain. -/
theorem classify_sample_type_rules (s : String) :
    classify_sample_type s =
      if "pe32".data <:+: s.data ∨ "executable".data <:+: s.data
      then "executable"
      else if "pdf".data <:+: s.data then "document"
      else if "zip".data <:+: s.data ∨ "archive".data <:+: s.data
      then "archive"
      else "unknown" := by
  simp only [classify_sample_type, py_contains_sub, Bool.or_eq_true,
    decide_eq_true_eq]

/-- The completeness score always lies in `[0, 1]`. -/
theorem calculate_completeness_bounds (v : PyValue) :
    0 ≤ calculate_completeness v ∧ calculate_completeness v ≤ 1 := by
  cases v with
  | pydict es =>
      simp only [calculate_completeness]
      constructor
      · exact div_nonneg (Nat.cast_nonneg _) (by norm_num [expected_fields])
      · rw [div_le_one (by norm_num [expected_fields])]
        have h := List.countP_le_length
          (fun f =>
            match dictLookup es f with
            | some v => truthy v
            | Option.none => false) (l := expected_fields)
        exact_mod_cast h
  | pynone => norm_num [calculate_completeness]
  | pybool b => norm_num [calculate_completeness]
  | pyint n => norm_num [calculate_completeness]
  | pyrat q => norm_num [calculate_completeness]
  | pystr s => norm_num [calculate_completeness]
  | pylist xs => norm_num [calculate_completeness]
  | pytime t => norm_num [calculate_completeness]
  | pydatetime y m d hh mm ss => norm_num [calculate_completeness]

/-- `dictLookup_afm_not_target` with a computable side condition, so `simp`
can discharge it. -/
theorem dictLookup_afm_not_target_bool (raw : List (String × PyValue))
    (k : String) (fm : List (String × String)) (acc : List (String × PyValue))
    (h : fm.all (fun e => e.2 != k) = true) :
    dictLookup (apply_field_mapping raw fm acc) k = dictLookup acc k := by
  refine dictLookup_afm_not_target raw k fm acc ?_
  intro e he
  have := (List.all_eq_true.mp h) e he
  simpa using this

/-- After the `field_mapping` loop, a present raw `SHA256` value sits under
`sha256_confirmed`. -/
theorem dictLookup_afm_sha256_confirmed (raw acc : List (String × PyValue))
    (v : PyValue) (hv : dictLookup raw "SHA256" = some v) :
    dictLookup (apply_field_mapping raw field_mapping acc)
      "sha256_confirmed" = some v := by
  simp only [field_mapping, apply_field_mapping, hv]
  repeat' split
  all_goals
    simp [dictLookup_dictInsert, dictLookup_dictInsert_self]

/-- On a non-dict raw input the transformer returns just the metadata plus a
zero completeness score. -/
theorem transform_data_nondict (raw : PyValue) (hash : String) (now : Nat)
    (hnd : isDict raw = false) :
    transform_data raw hash now =
      .ok [("sha256", .pystr hash), ("ingestion_timestamp", .pytime now),
           ("source", .pystr "malshare_api"),
           ("connector_version", .pystr "1.0"),
           ("raw_response", raw),
           ("data_completeness", .pyrat 0)] := by
  cases raw <;>
    simp_all [transform_data, isDict, calculate_completeness, dictInsert,
      bind, Except.bind, pure, Except.pure]

/-- On a dict raw input whose `ADDED` value (when present) is a string and
whose `F_TYPE` value defaults to the string `ft`, the transformer succeeds
and the produced record has the promised fields. -/
theorem transform_data_dict_ok (es : List (String × PyValue)) (hash : String)
    (now : Nat) (ft : String)
    (hA : ∀ v, dictLookup es "ADDED" = some v → ∃ s, v = .pystr s)
    (hF : (dictLookup es "F_TYPE").getD (.pystr "") = .pystr ft) :
    ∃ rec, transform_data (.pydict es) hash now = .ok rec ∧
      dictLookup rec "sample_type" =
        some (.pystr (classify_sample_type (py_lower ft))) ∧
      dictLookup rec "sha256" = some (.pystr hash) ∧
      dictLookup rec "ingestion_timestamp" = some (.pytime now) ∧
      dictLookup rec "source" = some (.pystr "malshare_api") ∧
      dictLookup rec "connector_version" = some (.pystr "1.0") ∧
      dictLookup rec "raw_response" = some (.pydict es) ∧
      dictLookup rec "data_completeness" =
        some (.pyrat (calculate_completeness (.pydict es))) ∧
      (∀ v, dictLookup es "SHA256" = some v →
        dictLookup rec "sha256_confirmed" = some v) := by
  cases hAdd : dictLookup es "ADDED" with
  | none =>
      have heq : transform_data (.pydict es) hash now =
          .ok (dictInsert
            (dictInsert
              (apply_field_mapping es field_mapping
                (transform_base (.pydict es) hash now))
              "sample_type" (.pystr (classify_sample_type (py_lower ft))))
            "data_completeness"
            (.pyrat (calculate_completeness (.pydict es)))) := by
        simp only [transform_data, bind, Except.bind, pure, Except.pure,
          hAdd, hF]
      refine ⟨_, heq, ?_, ?_, ?_, ?_, ?_, ?_, ?_, fun v hv => ?_⟩
      all_goals
        try simp [dictLookup_dictInsert, dictLookup_afm_not_target_bool,
          field_mapping, dictLookup, transform_base]
      all_goals
        exact dictLookup_afm_sha256_confirmed _ _ _ hv
  | some v =>
      obtain ⟨s, rfl⟩ := hA v hAdd
      cases hP : strptime_ymd_hms s with
      | none =>
          have heq : transform_data (.pydict es) hash now =
              .ok (dictInsert
                (dictInsert
                  (apply_field_mapping es field_mapping
                    (transform_base (.pydict es) hash now))
                  "sample_type" (.pystr (classify_sample_type (py_lower ft))))
                "data_completeness"
                (.pyrat (calculate_completeness (.pydict es)))) := by
            simp only [transform_data, bind, Except.bind, pure, Except.pure,
              hAdd, hF, hP]
          refine ⟨_, heq, ?_, ?_, ?_, ?_, ?_, ?_, ?_, fun v hv => ?_⟩
          all_goals
            try simp [dictLookup_dictInsert, dictLookup_afm_not_target_bool,
              field_mapping, dictLookup, transform_base]
          all_goals
            exact dictLookup_afm_sha256_confirmed _ _ _ hv
      | some dt =>
          have heq : transform_data (.pydict es) hash now =
              .ok (dictInsert
                (dictInsert
                  (dictInsert
                    (apply_field_mapping es field_mapping
                      (transform_base (.pydict es) hash now))
                    "date_added_parsed" dt)
                  "sample_type" (.pystr (classify_sample_type (py_lower ft))))
                "data_completeness"
                (.pyrat (calculate_completeness (.pydict es)))) := by
            simp only [transform_data, bind, Except.bind, pure, Except.pure,
              hAdd, hF, hP]
          refine ⟨_, heq, ?_, ?_, ?_, ?_, ?_, ?_, ?_, fun v hv => ?_⟩
          all_goals
            try simp [dictLookup_dictInsert, dictLookup_afm_not_target_bool,
              field_mapping, dictLookup, transform_base]
          all_goals
            exact dictLookup_afm_sha256_confirmed _ _ _ hv

/-- A dict input whose `F_TYPE` value is present but not a string makes
`transform_data` raise `AttributeError` from `.lower()` (provided `ADDED`
did not already raise). -/
theorem transform_data_ftype_not_str (es : List (String × PyValue))
    (hash : String) (now : Nat) (w : PyValue)
    (hA : ∀ v, dictLookup es "ADDED" = some v → ∃ s, v = PyValue.pystr s)
    (hFv : dictLookup es "F_TYPE" = some w)
    (hw : ∀ s, w ≠ .pystr s) :
    transform_data (.pydict es) hash now =
      .error "AttributeError: lower" := by
  cases hAdd : dictLookup es "ADDED" with
  | none =>
      cases w <;>
        first
          | exact absurd rfl (hw _)
          | simp [transform_data, bind, Except.bind, pure, Except.pure,
              hAdd, hFv]
  | some v =>
      obtain ⟨s, rfl⟩ := hA v hAdd
      cases w <;>
        first
          | exact absurd rfl (hw _)
          | simp [transform_data, bind, Except.bind, pure, Except.pure,
              hAdd, hFv]

/-- Inverting a successful transform of a dict input: the `F_TYPE` value
must default to some string `ft`, and the record stores the classification
of its lower-casing, the identifier under `sha256`, and any raw `SHA256`
value under `sha256_confirmed`. -/
theorem transform_data_dict_inversion (es : List (String × PyValue))
    (hash : String) (now : Nat) (rec : List (String × PyValue))
    (h : transform_data (.pydict es) hash now = .ok rec) :
    ∃ ft, (dictLookup es "F_TYPE").getD (.pystr "") = .pystr ft ∧
      dictLookup rec "sample_type" =
        some (.pystr (classify_sample_type (py_lower ft))) ∧
      dictLookup rec "sha256" = some (.pystr hash) ∧
      (∀ v, dictLookup es "SHA256" = some v →
        dictLookup rec "sha256_confirmed" = some v) := by
  have hA : ∀ v, dictLookup es "ADDED" = some v → ∃ s, v = PyValue.pystr s := by
    intro v hv
    cases v <;>
      first
        | exact ⟨_, rfl⟩
        | simp [transform_data, bind, Except.bind, pure, Except.pure, hv] at h
  have hFT : ∃ ft, (dictLookup es "F_TYPE").getD (.pystr "") = .pystr ft := by
    cases hFv : dictLookup es "F_TYPE" with
    | none => exact ⟨"", rfl⟩
    | some w =>
        cases w <;>
          first
            | exact ⟨_, rfl⟩
            | (rw [transform_data_ftype_not_str es hash now _ hA hFv
                  (fun s hs => by cases hs)] at h
               exact Except.noConfusion h)
  obtain ⟨ft, hF⟩ := hFT
  obtain ⟨rec2, heq, hst, hsha, -, -, -, -, -, hconf⟩ :=
    transform_data_dict_ok es hash now ft hA hF
  have hrec : rec = rec2 := by
    rw [h] at heq
    exact ((Except.ok.injEq _ _).mp heq.symm).symm
  subst hrec
  exact ⟨ft, hF, hst, hsha, hconf⟩

/-!
## Helper lemmas for the claims
-/

/-- Auxiliary: the `List.mapM` accumulator loop under `py_strip`. -/
theorem mapM_loop_py_strip (lines : List String) :
    ∀ acc : List String,
      List.mapM.loop py_strip (lines.map PyValue.pystr) acc =
        .ok (acc.reverse ++ lines.map py_strip_str) := by
  induction lines with
  | nil => intro acc; simp [List.mapM.loop, pure, Except.pure]
  | cons a rest ih =>
      intro acc
      simp [List.mapM.loop, py_strip, bind, Except.bind, ih]

/-- Stripping a list of Python strings element-wise never raises and strips
each element. -/
theorem mapM_py_strip (lines : List String) :
    (lines.map PyValue.pystr).mapM py_strip = .ok (lines.map py_strip_str) := by
  have h := mapM_loop_py_strip lines []
  simpa [List.mapM] using h

/-- Every record `transform_data` returns carries the identifier under
`sha256`. -/
theorem transform_data_has_sha256 (raw : PyValue) (hash : String) (now : Nat)
    (rec : List (String × PyValue))
    (h : transform_data raw hash now = .ok rec) :
    dictLookup rec "sha256" = some (.pystr hash) := by
  cases raw with
  | pydict es =>
      obtain ⟨ft, -, -, hsha, -⟩ :=
        transform_data_dict_inversion es hash now rec h
      exact hsha
  | pynone =>
      rw [transform_data_nondict _ _ _ (by simp [isDict])] at h
      injection h with h2
      rw [← h2]
      rfl
  | pybool b =>
      rw [transform_data_nondict _ _ _ (by simp [isDict])] at h
      injection h with h2
      rw [← h2]
      rfl
  | pyint n =>
      rw [transform_data_nondict _ _ _ (by simp [isDict])] at h
      injection h with h2
      rw [← h2]
      rfl
  | pyrat q =>
      rw [transform_data_nondict _ _ _ (by simp [isDict])] at h
      injection h with h2
      rw [← h2]
      rfl
  | pystr s =>
      rw [transform_data_nondict _ _ _ (by simp [isDict])] at h
      injection h with h2
      rw [← h2]
      rfl
  | pylist xs =>
      rw [transform_data_nondict _ _ _ (by simp [isDict])] at h
      injection h with h2
      rw [← h2]
      rfl
  | pytime t =>
      rw [transform_data_nondict _ _ _ (by simp [isDict])] at h
      injection h with h2
      rw [← h2]
      rfl
  | pydatetime y mo d hh mi ss =>
      rw [transform_data_nondict _ _ _ (by simp [isDict])] at h
      injection h with h2
      rw [← h2]
      rfl

/-- The extractor never returns more than `limit` identifiers. -/
theorem extract_sample_list_length_le (limit : Nat) (resp : Option PyValue)
    (out : List String) (h : extract_sample_list limit resp = .ok out) :
    out.length ≤ limit := by
  cases resp with
  | none =>
      simp only [extract_sample_list] at h
      injection h with h2
      simp [← h2]
  | some v =>
      simp only [extract_sample_list, bind, Except.bind, pure,
        Except.pure] at h
      repeat' split at h
      all_goals
        first
          | exact Except.noConfusion h
          | (injection h with h2
             simpa [← h2, List.length_take] using Nat.min_le_left limit _)
          | (injection h with h2; simp [← h2])

/-- An attempt trace that always fails with a network error. -/
def alwaysFailOutcome : Nat → AttemptOutcome :=
  fun _ => .netError "connection refused"

/-- An attempt trace whose first attempt is rate limited and whose second
attempt succeeds with a JSON payload. -/
def rateLimitThenSuccess : Nat → AttemptOutcome := fun i =>
  if i = 0 then .rateLimited
  else .success "application/json" (.pystr "payload") ""

/-!
## Claims
-/

/-- C1 (counterexample): `transform_data` is not total on all structured
mappings: on the input `{'ADDED': 5}` the `strptime` call receives a
non-string and raises `TypeError`, which the `except ValueError` handler of
line 239 does not catch, so the transform raises instead of returning a
record. -/
theorem c1_transform_raises_on_nonstring_added :
    transform_data (.pydict [("ADDED", .pyint 5)]) "somehash" 0 =
      .error "TypeError: strptime() argument 1 must be str" := rfl

/-- C1 (amended): for every raw input that is not a mapping, or is a mapping
whose `ADDED` and `F_TYPE` values (when present) are strings, and every
identifier, `transform_data` returns without raising a record in which
`sha256` (the primary key) equals the identifier, `ingestion_timestamp`,
`source`, and `raw_response` (the raw input verbatim) are populated, and
`data_completeness` lies in `[0, 1]`. -/
theorem c1_transform_total_core_fields (raw : PyValue) (hash : String)
    (now : Nat)
    (hwf : ∀ es, raw = .pydict es →
      (∀ v, dictLookup es "ADDED" = some v → ∃ s, v = .pystr s) ∧
      (∀ v, dictLookup es "F_TYPE" = some v → ∃ s, v = .pystr s)) :
    ∃ rec, transform_data raw hash now = .ok rec ∧
      dictLookup rec "sha256" = some (.pystr hash) ∧
      dictLookup rec "ingestion_timestamp" = some (.pytime now) ∧
      dictLookup rec "source" = some (.pystr "malshare_api") ∧
      dictLookup rec "raw_response" = some raw ∧
      ∃ c, dictLookup rec "data_completeness" = some (.pyrat c) ∧
        0 ≤ c ∧ c ≤ 1 := by
  cases raw with
  | pydict es =>
      obtain ⟨hA, hFv⟩ := hwf es rfl
      have hFT : ∃ ft, (dictLookup es "F_TYPE").getD (.pystr "") =
          .pystr ft := by
        cases hF : dictLookup es "F_TYPE" with
        | none => exact ⟨"", rfl⟩
        | some w =>
            obtain ⟨s, rfl⟩ := hFv w hF
            exact ⟨s, rfl⟩
      obtain ⟨ft, hF⟩ := hFT
      obtain ⟨rec, heq, -, hsha, hts, hsrc, -, hraw, hdc, -⟩ :=
        transform_data_dict_ok es hash now ft hA hF
      exact ⟨rec, heq, hsha, hts, hsrc, hraw,
        calculate_completeness (.pydict es), hdc,
        calculate_completeness_bounds _⟩
  | pynone =>
      exact ⟨_, transform_data_nondict _ _ _ (by simp [isDict]), by simp
        [dictLookup], by simp [dictLookup], by simp [dictLookup], by simp
        [dictLookup], 0, by simp [dictLookup], le_refl 0, by norm_num⟩
  | pybool b =>
      exact ⟨_, transform_data_nondict _ _ _ (by simp [isDict]), by simp
        [dictLookup], by simp [dictLookup], by simp [dictLookup], by simp
        [dictLookup], 0, by simp [dictLookup], le_refl 0, by norm_num⟩
  | pyint n =>
      exact ⟨_, transform_data_nondict _ _ _ (by simp [isDict]), by simp
        [dictLookup], by simp [dictLookup], by simp [dictLookup], by simp
        [dictLookup], 0, by simp [dictLookup], le_refl 0, by norm_num⟩
  | pyrat q =>
      exact ⟨_, transform_data_nondict _ _ _ (by simp [isDict]), by simp
        [dictLookup], by simp [dictLookup], by simp [dictLookup], by simp
        [dictLookup], 0, by simp [dictLookup], le_refl 0, by norm_num⟩
  | pystr st =>
      exact ⟨_, transform_data_nondict _ _ _ (by simp [isDict]), by simp
        [dictLookup], by simp [dictLookup], by simp [dictLookup], by simp
        [dictLookup], 0, by simp [dictLookup], le_refl 0, by norm_num⟩
  | pylist xs =>
      exact ⟨_, transform_data_nondict _ _ _ (by simp [isDict]), by simp
        [dictLookup], by simp [dictLookup], by simp [dictLookup], by simp
        [dictLookup], 0, by simp [dictLookup], le_refl 0, by norm_num⟩
  | pytime t =>
      exact ⟨_, transform_data_nondict _ _ _ (by simp [isDict]), by simp
        [dictLookup], by simp [dictLookup], by simp [dictLookup], by simp
        [dictLookup], 0, by simp [dictLookup], le_refl 0, by norm_num⟩
  | pydatetime y mo d hh mi ss =>
      exact ⟨_, transform_data_nondict _ _ _ (by simp [isDict]), by simp
        [dictLookup], by simp [dictLookup], by simp [dictLookup], by simp
        [dictLookup], 0, by simp [dictLookup], le_refl 0, by norm_num⟩

/-- C1 (witness): the amended totality theorem at the concrete mapping
`{'MD5': 'abc', 'ADDED': '2024-01-15 10:30:00'}` with identifier `id256`. -/
theorem c1_transform_total_core_fields_witness :
    ∃ rec, transform_data
        (.pydict [("MD5", .pystr "abc"),
                  ("ADDED", .pystr "2024-01-15 10:30:00")]) "id256" 99 =
        .ok rec ∧
      dictLookup rec "sha256" = some (.pystr "id256") ∧
      dictLookup rec "ingestion_timestamp" = some (.pytime 99) ∧
      dictLookup rec "source" = some (.pystr "malshare_api") ∧
      dictLookup rec "raw_response" =
        some (.pydict [("MD5", .pystr "abc"),
                       ("ADDED", .pystr "2024-01-15 10:30:00")]) ∧
      ∃ c, dictLookup rec "data_completeness" = some (.pyrat c) ∧
        0 ≤ c ∧ c ≤ 1 := by
  refine c1_transform_total_core_fields _ _ _ ?_
  intro es hes
  cases hes
  constructor
  · intro v hv
    simp only [dictLookup] at hv
    simp at hv
    exact ⟨_, hv.symm⟩
  · intro v hv
    simp only [dictLookup] at hv
    simp at hv

/-- C2: for every attempt budget, delay, and outcome trace in which every
attempt fails with a non-429 failure (network error or non-2xx status),
`_make_api_request` issues exactly `max_retries` attempts, sleeping
`delay * 2 ^ attempt` seconds between consecutive attempts, and returns the
sentinel no-data value `None`; no exception reaches the caller. -/
theorem c2_request_failures_exhaust_attempts (m : Nat) (d : ℚ)
    (o : Nat → AttemptOutcome) (hf : ∀ i, isRequestFailure (o i) = true) :
    make_api_request m d o =
      (Option.none, (List.range (m - 1)).map (fun i => d * 2 ^ i), m) := by
  have h := api_request_loop_all_fail d o hf m 0
  simpa using h

/-- C2 (witness): with `max_retries = 2`, delay 1, and an always-failing
trace, exactly 2 attempts are issued, one 1-second sleep happens between
them, and no data is returned. -/
theorem c2_request_failures_exhaust_attempts_witness :
    make_api_request 2 1 alwaysFailOutcome = (Option.none, [1], 2) := by
  have h := c2_request_failures_exhaust_attempts 2 1 alwaysFailOutcome
    (fun i => rfl)
  simpa using h

/-- C3: on HTTP 429 the executor waits `delay * 2 ^ attempt` and retries up
to the attempt budget (an all-429 trace sleeps after every one of its
`max_retries` attempts, the final one included, unlike other failures); and
for a rate-limited first attempt followed by a successful second attempt it
sleeps exactly once and returns the successful payload. -/
theorem c3_rate_limit_backoff_and_recovery (m : Nat) (d : ℚ)
    (o : Nat → AttemptOutcome) :
    ((∀ i, o i = .rateLimited) →
      make_api_request m d o =
        (Option.none, (List.range m).map (fun i => d * 2 ^ i), m)) ∧
    (∀ ct j t, o 0 = .rateLimited → o 1 = .success ct j t → 2 ≤ m →
      make_api_request m d o = (some (process_response ct j t), [d], 2)) := by
  constructor
  · intro hrl
    have h := api_request_loop_all_rate_limited d o hrl m 0
    simpa using h
  · intro ct j t h0 h1 hm
    obtain ⟨r, rfl⟩ : ∃ r, m = r + 2 := ⟨m - 2, by omega⟩
    rw [make_api_request, api_request_loop]
    simp only [h0]
    rw [api_request_loop]
    simp only [h1]
    simp

/-- C3 (witness): budget 2, delay 1, a rate-limited first attempt and a
successful JSON second attempt: one 1-second sleep, 2 attempts, and the
parsed payload is returned. -/
theorem c3_rate_limit_backoff_and_recovery_witness :
    make_api_request 2 1 rateLimitThenSuccess =
      (some (.pystr "payload"), [1], 2) := by
  have h := (c3_rate_limit_backoff_and_recovery 2 1 rateLimitThenSuccess).2
    "application/json" (.pystr "payload") "" rfl rfl (by norm_num)
  exact h

/-- C4: for every record the pipeline passes to `load_data` (i.e. every
record a successful `transform_data` produced) the call returns a boolean
and never raises past this boundary: an insert, a replace with change, and
a replace with no change all return `True`, and any underlying store error
is caught and reported as `False`, never propagated. -/
theorem c4_load_data_boolean_never_raises (raw : PyValue) (hash : String)
    (now : Nat) (rec : List (String × PyValue))
    (hrec : transform_data raw hash now = .ok rec) :
    (∀ upserted modified,
      load_data rec (.res upserted modified) = .ok true) ∧
    (∀ msg, load_data rec (.raised msg) = .ok false) := by
  have hsha := transform_data_has_sha256 raw hash now rec hrec
  constructor
  · intro upserted modified
    simp [load_data, hsha, pure, Except.pure]
  · intro msg
    simp [load_data, hsha, pure, Except.pure]

/-- C4 (witness): the loader applied to the record transformed from the
non-mapping raw input `None`: insert, replace-with-change, and
replace-no-change return `True`; a raised store error returns `False`. -/
theorem c4_load_data_boolean_never_raises_witness :
    load_data [("sha256", .pystr "h"), ("ingestion_timestamp", .pytime 0),
      ("source", .pystr "malshare_api"), ("connector_version", .pystr "1.0"),
      ("raw_response", .pynone), ("data_completeness", .pyrat 0)]
      (.res (some "newid") 0) = .ok true ∧
    load_data [("sha256", .pystr "h"), ("ingestion_timestamp", .pytime 0),
      ("source", .pystr "malshare_api"), ("connector_version", .pystr "1.0"),
      ("raw_response", .pynone), ("data_completeness", .pyrat 0)]
      (.res Option.none 1) = .ok true ∧
    load_data [("sha256", .pystr "h"), ("ingestion_timestamp", .pytime 0),
      ("source", .pystr "malshare_api"), ("connector_version", .pystr "1.0"),
      ("raw_response", .pynone), ("data_completeness", .pyrat 0)]
      (.res Option.none 0) = .ok true ∧
    load_data [("sha256", .pystr "h"), ("ingestion_timestamp", .pytime 0),
      ("source", .pystr "malshare_api"), ("connector_version", .pystr "1.0"),
      ("raw_response", .pynone), ("data_completeness", .pyrat 0)]
      (.raised "connection reset") = .ok false := by
  have h := c4_load_data_boolean_never_raises .pynone "h" 0
    [("sha256", .pystr "h"), ("ingestion_timestamp", .pytime 0),
     ("source", .pystr "malshare_api"), ("connector_version", .pystr "1.0"),
     ("raw_response", .pynone), ("data_completeness", .pyrat 0)] rfl
  exact ⟨h.1 (some "newid") 0, h.1 Option.none 1, h.1 Option.none 0,
    h.2 "connection reset"⟩

/-- C5: for every list-action response (a `data` key holding the response
lines) and every limit, `extract_sample_list` trims each line, discards the
lines that are empty after trimming, truncates to at most `limit` entries,
and preserves the relative order of the surviving lines (the result is a
sublist of the trimmed lines); when the executor reports failure (`None`),
it returns the empty sequence. -/
theorem c5_extract_sample_list_spec (limit : Nat) (lines : List String) :
    extract_sample_list limit
        (some (.pydict [("data", .pylist (lines.map .pystr))])) =
      .ok (((lines.map py_strip_str).filter fun s => s != "").take limit) ∧
    (((lines.map py_strip_str).filter fun s => s != "").take limit).length
        ≤ limit ∧
    (((lines.map py_strip_str).filter fun s => s != "").take limit).Sublist
        (lines.map py_strip_str) ∧
    extract_sample_list limit Option.none = .ok [] := by
  refine ⟨?_, ?_, ?_, rfl⟩
  · simp [extract_sample_list, truthy, py_contains_key, py_getitem,
      dictLookup, py_iter, bind, Except.bind, pure, Except.pure,
      List.mapM, mapM_loop_py_strip]
  · simpa [List.length_take] using Nat.min_le_left limit _
  · exact (List.take_sublist _ _).trans (List.filter_sublist _)

/-- C6: for every mapping raw record transformed successfully, with `ft` the
record's file-type string (defaulting to empty when absent), the stored
sample type is obtained by lower-casing `ft` and applying the substring
rules in priority order, first match winning: pe32/executable →
executable; else pdf → document; else zip/archive → archive; else
unknown. -/
theorem c6_sample_type_priority_rules (es : List (String × PyValue))
    (hash : String) (now : Nat) (rec : List (String × PyValue)) (ft : String)
    (h : transform_data (.pydict es) hash now = .ok rec)
    (hft : (dictLookup es "F_TYPE").getD (.pystr "") = .pystr ft) :
    dictLookup rec "sample_type" = some (.pystr
      (if "pe32".data <:+: (py_lower ft).data ∨
          "executable".data <:+: (py_lower ft).data then "executable"
       else if "pdf".data <:+: (py_lower ft).data then "document"
       else if "zip".data <:+: (py_lower ft).data ∨
          "archive".data <:+: (py_lower ft).data then "archive"
       else "unknown")) := by
  obtain ⟨ft2, hF2, hst, -, -⟩ :=
    transform_data_dict_inversion es hash now rec h
  rw [hft] at hF2
  have hfteq : ft = ft2 := by
    injection hF2 with h3
  subst hfteq
  rw [hst, classify_sample_type_rules]

/-- C6 (witness): the record `{'F_TYPE': 'PE32 executable'}` is classified
as `executable`. -/
theorem c6_sample_type_priority_rules_witness :
    dictLookup [("sha256", .pystr "w6"), ("ingestion_timestamp", .pytime 0),
      ("source", .pystr "malshare_api"), ("connector_version", .pystr "1.0"),
      ("raw_response", .pydict [("F_TYPE", .pystr "PE32 executable")]),
      ("file_type", .pystr "PE32 executable"),
      ("sample_type", .pystr "executable"),
      ("data_completeness", .pyrat (1 / 5))] "sample_type" =
      some (.pystr "executable") := by
  have h := c6_sample_type_priority_rules
    [("F_TYPE", .pystr "PE32 executable")] "w6" 0
    [("sha256", .pystr "w6"), ("ingestion_timestamp", .pytime 0),
     ("source", .pystr "malshare_api"), ("connector_version", .pystr "1.0"),
     ("raw_response", .pydict [("F_TYPE", .pystr "PE32 executable")]),
     ("file_type", .pystr "PE32 executable"),
     ("sample_type", .pystr "executable"),
     ("data_completeness", .pyrat (1 / 5))] "PE32 executable"
    (by norm_num [transform_data, apply_field_mapping, field_mapping,
      dictLookup, dictInsert, calculate_completeness, expected_fields,
      truthy, transform_base, bind, Except.bind, pure, Except.pure]
        <;> rfl) rfl
  rw [h]
  rw [← classify_sample_type_rules]
  rfl

/-- C7: the completeness score equals the fraction of the fixed 5-field
expected set (MD5, SHA1, SHA256, F_TYPE, ADDED) present in the raw record
with a truthy value; any non-mapping input yields exactly 0; all 5 fields
present gives 1.0, 2 of 5 gives 0.4, and an empty record gives 0.0. -/
theorem c7_completeness_fraction (v : PyValue)
    (es : List (String × PyValue)) :
    (isDict v = false → calculate_completeness v = 0) ∧
    expected_fields = ["MD5", "SHA1", "SHA256", "F_TYPE", "ADDED"] ∧
    expected_fields.length = 5 ∧
    calculate_completeness (.pydict es) * 5 =
      (expected_fields.countP fun f =>
        ((dictLookup es f).map truthy).getD false : Nat) ∧
    calculate_completeness (.pydict
      [("MD5", .pystr "m"), ("SHA1", .pystr "s1"), ("SHA256", .pystr "s2"),
       ("F_TYPE", .pystr "pe"), ("ADDED", .pystr "d")]) = 1 ∧
    calculate_completeness (.pydict
      [("MD5", .pystr "m"), ("SHA1", .pystr "s1")]) = 2 / 5 ∧
    (2 / 5 : ℚ) = 0.4 ∧
    calculate_completeness (.pydict []) = 0 := by
  refine ⟨?_, rfl, rfl, ?_, ?_, ?_, by norm_num, ?_⟩
  · intro hv
    cases v <;> simp_all [calculate_completeness, isDict]
  · have hcong : (expected_fields.countP fun f =>
        match dictLookup es f with
        | some w => truthy w
        | Option.none => false) =
        (expected_fields.countP fun f =>
          ((dictLookup es f).map truthy).getD false) := by
      refine List.countP_congr ?_
      intro f _
      cases dictLookup es f <;> rfl
    simp only [calculate_completeness]
    rw [show ((expected_fields.length : ℚ)) = 5 by norm_num [expected_fields]]
    rw [div_mul_cancel₀ _ (by norm_num : (5 : ℚ) ≠ 0)]
    exact_mod_cast hcong
  · norm_num +decide [calculate_completeness, expected_fields,
      List.countP_cons, List.countP_nil, dictLookup, truthy]
  · norm_num +decide [calculate_completeness, expected_fields,
      List.countP_cons, List.countP_nil, dictLookup, truthy]
  · norm_num +decide [calculate_completeness, expected_fields,
      List.countP_cons, List.countP_nil, dictLookup]

/-- C7 (witness): the non-mapping input `[]` (a list) scores exactly 0. -/
theorem c7_completeness_fraction_witness :
    calculate_completeness (.pylist []) = 0 :=
  (c7_completeness_fraction (.pylist []) []).1 rfl

/-- C8 (counterexample): the pipeline orchestrator's own default sample
limit (line 300) is 50, not 25: invoked without a limit on a 26-line list
response, it accepts 26 identifiers, more than 25. -/
theorem c8_default_limit_is_50_not_25 :
    run_etl_default_sample_limit = 50 ∧
    run_etl_default_sample_limit ≠ 25 ∧
    run_etl_sample_hashes run_etl_default_sample_limit
        (some (.pydict [("data",
          .pylist (List.replicate 26 (PyValue.pystr "h")))])) =
      .ok (List.replicate 26 "h") ∧
    25 < (List.replicate 26 "h").length := by
  refine ⟨rfl, by norm_num [run_etl_default_sample_limit], ?_, by norm_num⟩
  rfl

/-- C8 (amended): the default of 25 identifiers comes from the environment
layer: when `SAMPLE_LIMIT` is unset, `main` passes 25 to the orchestrator,
which then asks the Extractor for at most 25 identifiers; the orchestrator
function's own default parameter, used when its caller passes no limit, is
50. -/
theorem c8_sample_limit_defaults (resp : Option PyValue)
    (hashes : List String)
    (h : run_etl_sample_hashes 25 resp = .ok hashes) :
    main_sample_limit Option.none = some 25 ∧
    run_etl_default_sample_limit = 50 ∧
    hashes.length ≤ 25 := by
  exact ⟨by decide, rfl, extract_sample_list_length_le 25 resp hashes h⟩

/-- C8 (witness): the amended theorem at a concrete 26-line list response:
with the environment default of 25, the extractor yields 25 identifiers. -/
theorem c8_sample_limit_defaults_witness :
    main_sample_limit Option.none = some 25 ∧
    run_etl_default_sample_limit = 50 ∧
    (List.replicate 25 "h").length ≤ 25 :=
  c8_sample_limit_defaults
    (some (.pydict [("data",
      .pylist (List.replicate 26 (PyValue.pystr "h")))]))
    (List.replicate 25 "h") rfl

/-- C9: a successfully transformed non-mapping input contains no
`sample_type` field at all (classification is skipped together with field
mapping and date parsing), whereas every successfully transformed mapping
input carries a `sample_type` drawn from executable / document / archive /
unknown. -/
theorem c9_sample_type_presence (raw : PyValue) (hash : String) (now : Nat)
    (rec : List (String × PyValue))
    (h : transform_data raw hash now = .ok rec) :
    (isDict raw = false → dictLookup rec "sample_type" = Option.none) ∧
    (isDict raw = true →
      ∃ t, dictLookup rec "sample_type" = some (.pystr t) ∧
        (t = "executable" ∨ t = "document" ∨ t = "archive" ∨
          t = "unknown")) := by
  constructor
  · intro hnd
    rw [transform_data_nondict raw hash now hnd] at h
    injection h with h2
    rw [← h2]
    rfl
  · intro hd
    cases raw with
    | pydict es =>
        obtain ⟨ft, -, hst, -, -⟩ :=
          transform_data_dict_inversion es hash now rec h
        exact ⟨classify_sample_type (py_lower ft), hst,
          classify_sample_type_mem _⟩
    | pynone => simp [isDict] at hd
    | pybool b => simp [isDict] at hd
    | pyint n => simp [isDict] at hd
    | pyrat q => simp [isDict] at hd
    | pystr st => simp [isDict] at hd
    | pylist xs => simp [isDict] at hd
    | pytime t => simp [isDict] at hd
    | pydatetime y mo d hh mi ss => simp [isDict] at hd

/-- C9 (witness): the non-mapping input `None` yields a record with no
`sample_type` key; the empty mapping yields `sample_type = unknown`. -/
theorem c9_sample_type_presence_witness :
    dictLookup [("sha256", .pystr "w9"), ("ingestion_timestamp", .pytime 0),
      ("source", .pystr "malshare_api"), ("connector_version", .pystr "1.0"),
      ("raw_response", .pynone), ("data_completeness", .pyrat 0)]
      "sample_type" = Option.none ∧
    ∃ t, dictLookup [("sha256", .pystr "w9"),
      ("ingestion_timestamp", .pytime 0),
      ("source", .pystr "malshare_api"), ("connector_version", .pystr "1.0"),
      ("raw_response", .pydict []), ("sample_type", .pystr "unknown"),
      ("data_completeness", .pyrat 0)] "sample_type" =
        some (.pystr t) ∧
      (t = "executable" ∨ t = "document" ∨ t = "archive" ∨
        t = "unknown") := by
  constructor
  · exact (c9_sample_type_presence .pynone "w9" 0
      [("sha256", .pystr "w9"), ("ingestion_timestamp", .pytime 0),
       ("source", .pystr "malshare_api"),
       ("connector_version", .pystr "1.0"),
       ("raw_response", .pynone), ("data_completeness", .pyrat 0)]
      rfl).1 rfl
  · exact (c9_sample_type_presence (.pydict []) "w9" 0
      [("sha256", .pystr "w9"), ("ingestion_timestamp", .pytime 0),
       ("source", .pystr "malshare_api"),
       ("connector_version", .pystr "1.0"),
       ("raw_response", .pydict []), ("sample_type", .pystr "unknown"),
       ("data_completeness", .pyrat 0)]
      (by norm_num [transform_data, apply_field_mapping, field_mapping,
        dictLookup, dictInsert, calculate_completeness, expected_fields,
        transform_base, bind, Except.bind, pure, Except.pure]
          <;> rfl)).2 rfl

/-- C10: the `sha256` field of a successfully transformed record equals the
identifier argument even when the raw mapping carries its own `SHA256`
provider field with a different value: the provider value is stored under
the separate key `sha256_confirmed` and never overwrites the primary
key. -/
theorem c10_sha256_is_identifier (es : List (String × PyValue))
    (hash : String) (now : Nat) (rec : List (String × PyValue))
    (h : transform_data (.pydict es) hash now = .ok rec) :
    dictLookup rec "sha256" = some (.pystr hash) ∧
    (∀ v, dictLookup es "SHA256" = some v →
      dictLookup rec "sha256_confirmed" = some v) := by
  obtain ⟨ft, -, -, hsha, hconf⟩ :=
    transform_data_dict_inversion es hash now rec h
  exact ⟨hsha, hconf⟩

/-- C10 (witness): transforming `{'SHA256': 'other'}` under the identifier
`actual` keeps `sha256 = actual` and stores `other` under
`sha256_confirmed`. -/
theorem c10_sha256_is_identifier_witness :
    dictLookup [("sha256", .pystr "actual"),
      ("ingestion_timestamp", .pytime 0),
      ("source", .pystr "malshare_api"), ("connector_version", .pystr "1.0"),
      ("raw_response", .pydict [("SHA256", .pystr "other")]),
      ("sha256_confirmed", .pystr "other"),
      ("sample_type", .pystr "unknown"),
      ("data_completeness", .pyrat (1 / 5))] "sha256" =
      some (.pystr "actual") ∧
    dictLookup [("sha256", .pystr "actual"),
      ("ingestion_timestamp", .pytime 0),
      ("source", .pystr "malshare_api"), ("connector_version", .pystr "1.0"),
      ("raw_response", .pydict [("SHA256", .pystr "other")]),
      ("sha256_confirmed", .pystr "other"),
      ("sample_type", .pystr "unknown"),
      ("data_completeness", .pyrat (1 / 5))] "sha256_confirmed" =
      some (.pystr "other") := by
  have h := c10_sha256_is_identifier [("SHA256", .pystr "other")] "actual" 0
    [("sha256", .pystr "actual"), ("ingestion_timestamp", .pytime 0),
     ("source", .pystr "malshare_api"), ("connector_version", .pystr "1.0"),
     ("raw_response", .pydict [("SHA256", .pystr "other")]),
     ("sha256_confirmed", .pystr "other"),
     ("sample_type", .pystr "unknown"),
     ("data_completeness", .pyrat (1 / 5))]
    (by norm_num [transform_data, apply_field_mapping, field_mapping,
      dictLookup, dictInsert, calculate_completeness, expected_fields,
      truthy, transform_base, bind, Except.bind, pure, Except.pure]
        <;> rfl)
  exact ⟨h.1, h.2 (.pystr "other") rfl⟩
